import Mathlib

/-!
Verification development for the YTD / PYTD / P1YTD sales-metrics engine
(`ytd_calculations.py`).

The embedding models:
  * calendar dates as year/month/day triples over ℤ, with the proleptic
    Gregorian ordinal maps used by Python `datetime` (`toordinal` /
    `fromordinal`, here `toOrd` / `fromOrd`); `datetime - timedelta(days=k)`
    is `fromOrd (toOrd d - k)`;
  * sales tables as lists of records, with monetary amounts and quantities
    as exact rationals;
  * the pandas float special values produced by the growth-percentage
    division (`inf`, `-inf`, `NaN`) by an explicit inductive `FVal`;
  * the in-place column writes performed by some pipeline stages by
    state-passing wrappers returning the post-call state of the input
    table next to the output.
-/

/-- A calendar date, as Python `datetime` exposes it: year, month, day. -/
structure Date where
  year : ℤ
  month : ℤ
  day : ℤ
deriving DecidableEq

/-- Leap-year test, as in Python `calendar.isleap` / `datetime._is_leap`:
`year % 4 == 0 and (year % 100 != 0 or year % 400 == 0)`. -/
def isLeap (y : ℤ) : Bool :=
  decide (y % 4 = 0 ∧ (¬ y % 100 = 0 ∨ y % 400 = 0))

/-- Cumulative day counts before each month in a non-leap year
(`datetime._DAYS_BEFORE_MONTH`). -/
def daysBeforeMonthTable (m : ℤ) : ℤ :=
  if m ≤ 1 then 0
  else if m ≤ 2 then 31
  else if m ≤ 3 then 59
  else if m ≤ 4 then 90
  else if m ≤ 5 then 120
  else if m ≤ 6 then 151
  else if m ≤ 7 then 181
  else if m ≤ 8 then 212
  else if m ≤ 9 then 243
  else if m ≤ 10 then 273
  else if m ≤ 11 then 304
  else 334

/-- Days in each month of a non-leap year (`datetime._DAYS_IN_MONTH`). -/
def daysInMonthTable (m : ℤ) : ℤ :=
  if m = 2 then 28
  else if m = 4 ∨ m = 6 ∨ m = 9 ∨ m = 11 then 30
  else 31

/-- Python `datetime.date.toordinal` (`datetime._ymd2ord`): days since
0001-01-01 (which has ordinal 1), extended proleptically over ℤ with
floor division. -/
def toOrd (d : Date) : ℤ :=
  365 * (d.year - 1) + (d.year - 1) / 4 - (d.year - 1) / 100
    + (d.year - 1) / 400
    + daysBeforeMonthTable d.month
    + (if 3 ≤ d.month ∧ isLeap d.year = true then 1 else 0)
    + d.day

/-- Month/day from a zero-based day-of-year index, as in the tail of
Python `datetime._ord2ymd`: estimate the month as `(n + 50) >> 5` and
correct it downward by one when the estimate overshoots. -/
def monthDayOfDoy (n : ℤ) (leap : Bool) : ℤ × ℤ :=
  let month := ((n + 50) / 32)
  let preceding := daysBeforeMonthTable month + (if 3 ≤ month ∧ leap = true then 1 else 0)
  if n < preceding then
    let month2 := month - 1
    let preceding2 :=
      preceding - (daysInMonthTable month2 + (if month2 = 2 ∧ leap = true then 1 else 0))
    (month2, n - preceding2 + 1)
  else
    (month, n - preceding + 1)

/-- Python `datetime.date.fromordinal` (`datetime._ord2ymd`): peel off
400-year, 100-year, 4-year and 1-year cycles, then recover month and day. -/
def fromOrd (ord : ℤ) : Date :=
  let n0 := ord - 1
  let n400 := n0 / 146097
  let r1 := n0 % 146097
  let n100 := r1 / 36524
  let r2 := r1 % 36524
  let n4 := r2 / 1461
  let r3 := r2 % 1461
  let n1 := r3 / 365
  let n := r3 % 365
  let year := 400 * n400 + 1 + 100 * n100 + 4 * n4 + n1
  if n1 = 4 ∨ n100 = 4 then ⟨year - 1, 12, 31⟩
  else
    let leap := decide (n1 = 3 ∧ (¬ n4 = 24 ∨ n100 = 3))
    let md := monthDayOfDoy n leap
    ⟨year, md.1, md.2⟩

/-- `datetime - timedelta(days=k)`: exact day-count arithmetic on the
ordinal timeline. -/
def subDays (d : Date) (k : ℤ) : Date :=
  fromOrd (toOrd d - k)

/-- Python `s[-2:]`: the last two characters of a string (the whole
string when it is shorter). -/
def lastTwoChars (s : String) : String :=
  String.mk (s.toList.drop (s.toList.length - 2))

/-- `get_fiscal_year` (ytd_calculations.py line 18): the Indian fiscal
year runs April 1 to March 31; label `f"FY {fy_start}-{str(fy_end)[-2:]}"`. -/
def get_fiscal_year (date : Date) : String :=
  if date.month ≥ 4 then
    "FY " ++ toString date.year ++ "-" ++ lastTwoChars (toString (date.year + 1))
  else
    "FY " ++ toString (date.year - 1) ++ "-" ++ lastTwoChars (toString date.year)

/-- `get_ytd_date_range` (line 39): `(datetime(fyStartYear, 4, 1), as_of_date)`. -/
def get_ytd_date_range (as_of_date : Date) : Date × Date :=
  if as_of_date.month ≥ 4 then (⟨as_of_date.year, 4, 1⟩, as_of_date)
  else (⟨as_of_date.year - 1, 4, 1⟩, as_of_date)

/-- The six period bounds computed at lines 79-87 of `calculate_ytd_metrics`:
the YTD window, and its images under `- timedelta(days=365)` and
`- timedelta(days=730)`. -/
structure Windows where
  ytd_start : Date
  ytd_end : Date
  pytd_start : Date
  pytd_end : Date
  p1ytd_start : Date
  p1ytd_end : Date

/-- Lines 79-87 of `calculate_ytd_metrics`. -/
def ytdWindows (as_of_date : Date) : Windows :=
  let p := get_ytd_date_range as_of_date
  ⟨p.1, p.2, subDays p.1 365, subDays p.2 365, subDays p.1 730, subDays p.2 730⟩

lemma monthDayOfDoy_correct (n : ℤ) (leap : Bool)
    (h0 : 0 ≤ n) (h365 : n ≤ 365)
    (m d : ℤ) (hmd : monthDayOfDoy n leap = (m, d)) :
    1 ≤ m ∧ m ≤ 12 ∧ 1 ≤ d ∧
    daysBeforeMonthTable m + (if 3 ≤ m ∧ leap = true then 1 else 0) + d = n + 1 := by
  simp only [monthDayOfDoy] at hmd
  have hMd : ((n + 50) / 32) = 1 ∨ ((n + 50) / 32) = 2 ∨ ((n + 50) / 32) = 3 ∨
      ((n + 50) / 32) = 4 ∨ ((n + 50) / 32) = 5 ∨ ((n + 50) / 32) = 6 ∨
      ((n + 50) / 32) = 7 ∨ ((n + 50) / 32) = 8 ∨ ((n + 50) / 32) = 9 ∨
      ((n + 50) / 32) = 10 ∨ ((n + 50) / 32) = 11 ∨ ((n + 50) / 32) = 12 := by
    omega
  cases leap with
  | false =>
    rcases hMd with h|h|h|h|h|h|h|h|h|h|h|h <;>
      rw [h] at hmd <;>
      norm_num [daysBeforeMonthTable, daysInMonthTable] at hmd <;>
      split_ifs at hmd <;>
      (try obtain ⟨hm, hd⟩ := hmd) <;>
      norm_num [daysBeforeMonthTable] <;>
      omega
  | true =>
    rcases hMd with h|h|h|h|h|h|h|h|h|h|h|h <;>
      rw [h] at hmd <;>
      norm_num [daysBeforeMonthTable, daysInMonthTable] at hmd <;>
      split_ifs at hmd <;>
      (try obtain ⟨hm, hd⟩ := hmd) <;>
      norm_num [daysBeforeMonthTable] <;>
      omega

theorem toOrd_fromOrd (ord : ℤ) : toOrd (fromOrd ord) = ord := by
  simp only [fromOrd]
  set n0 := ord - 1 with hn0
  set n400 := n0 / 146097 with hn400
  set r1 := n0 % 146097 with hr1
  set n100 := r1 / 36524 with hn100
  set r2 := r1 % 36524 with hr2
  set n4 := r2 / 1461 with hn4
  set r3 := r2 % 1461 with hr3
  set n1 := r3 / 365 with hn1
  set n := r3 % 365 with hn
  set year := 400 * n400 + 1 + 100 * n100 + 4 * n4 + n1 with hyear
  clear_value n0 n400 r1 n100 r2 n4 r3 n1 n year
  by_cases hs : n1 = 4 ∨ n100 = 4
  · rw [if_pos hs]
    simp only [toOrd]
    have h12 : daysBeforeMonthTable 12 = 334 := by norm_num [daysBeforeMonthTable]
    rw [h12]
    by_cases hL : isLeap (year - 1) = true
    · rw [if_pos ⟨by norm_num, hL⟩]
      simp only [isLeap, decide_eq_true_eq] at hL
      rcases hs with h4 | h4
      · have e1 : (year - 1 - 1) / 4 = 100 * n400 + 25 * n100 + n4 := by omega
        have e2 : (year - 1 - 1) / 100 = 4 * n400 + n100 := by omega
        have e3 : (year - 1 - 1) / 400 = n400 := by omega
        omega
      · have e1 : (year - 1 - 1) / 4 = 100 * n400 + 99 := by omega
        have e2 : (year - 1 - 1) / 100 = 4 * n400 + 3 := by omega
        have e3 : (year - 1 - 1) / 400 = n400 := by omega
        omega
    · exfalso
      simp only [isLeap, decide_eq_true_eq] at hL
      rcases hs with h4 | h4
      · have e1 : (year - 1) % 4 = 0 := by omega
        have e2 : (year - 1) % 100 = 4 * n4 + 4 := by omega
        have e3 : (year - 1) % 400 = 100 * n100 + 4 * n4 + 4 := by omega
        omega
      · have e1 : (year - 1) % 4 = 0 := by omega
        have e2 : (year - 1) % 400 = 0 := by omega
        omega
  · rw [if_neg hs]
    set leap := decide (n1 = 3 ∧ (¬ n4 = 24 ∨ n100 = 3)) with hleapdef
    set md := monthDayOfDoy n leap with hmddef
    have hpair : monthDayOfDoy n leap = (md.1, md.2) := by
      rw [← hmddef]
    clear_value md
    obtain ⟨hm1, hm2, hd1, heq⟩ := monthDayOfDoy_correct n leap (by omega)
      (by omega) md.1 md.2 hpair
    simp only [toOrd]
    have hlp : (isLeap year = true) ↔ (leap = true) := by
      rw [hleapdef]
      simp only [isLeap, decide_eq_true_eq]
      have g1 : year % 4 = (n1 + 1) % 4 := by omega
      have g2 : year % 100 = (4 * n4 + n1 + 1) % 100 := by omega
      have g3 : year % 400 = (100 * n100 + 4 * n4 + n1 + 1) % 400 := by omega
      omega
    have f1 : (year - 1) / 4 = 100 * n400 + 25 * n100 + n4 := by omega
    have f2 : (year - 1) / 100 = 4 * n400 + n100 := by omega
    have f3 : (year - 1) / 400 = n400 := by omega
    by_cases hC : 3 ≤ md.1 ∧ leap = true
    · rw [if_pos hC] at heq
      rw [if_pos ⟨hC.1, hlp.mpr hC.2⟩]
      omega
    · rw [if_neg hC] at heq
      rw [if_neg (fun hc => hC ⟨hc.1, hlp.mp hc.2⟩)]
      omega

/-- One row of the input sales table after date parsing:
`date, product_name, sales_amount, quantity` (§ input schema). Amounts and
quantities are modelled as exact rationals. -/
structure SalesRecord where
  date : Date
  product_name : String
  sales_amount : ℚ
  quantity : ℚ
deriving DecidableEq

/-- Chronological comparison of timestamps, as pandas performs it on the
`date` column: comparison of day ordinals. -/
def dateLe (a b : Date) : Bool :=
  decide (toOrd a ≤ toOrd b)

/-- The window filter of lines 95-97:
`df[(df["date"] >= start) & (df["date"] <= end)]`, both bounds inclusive. -/
def filterWindow (rs : List SalesRecord) (ws we : Date) : List SalesRecord :=
  rs.filter (fun r => dateLe ws r.date && dateLe r.date we)

/-- Sum of `sales_amount` over the rows of one `product_name` group. -/
def salesOf (rs : List SalesRecord) (p : String) : ℚ :=
  ((rs.filter (fun r => decide (r.product_name = p))).map (fun r => r.sales_amount)).sum

/-- Sum of `quantity` over the rows of one `product_name` group. -/
def qtyOf (rs : List SalesRecord) (p : String) : ℚ :=
  ((rs.filter (fun r => decide (r.product_name = p))).map (fun r => r.quantity)).sum

/-- One row of a per-period `groupby("product_name").agg(sum)` result
(lines 100-116). -/
structure PSummary where
  product_name : String
  sales_total : ℚ
  qty_total : ℚ
deriving DecidableEq

/-- `groupby("product_name").agg({"sales_amount": "sum", "quantity": "sum"})`:
one row per distinct product, carrying the group sums. Row order is
irrelevant to every property stated below (pandas sorts group keys; here
the keys keep last-occurrence order of `List.dedup`). -/
def summarize (rs : List SalesRecord) : List PSummary :=
  ((rs.map (fun r => r.product_name)).dedup).map (fun p => ⟨p, salesOf rs p, qtyOf rs p⟩)

/-- The key column of a summary table. -/
def summaryKeys (s : List PSummary) : List String :=
  s.map (fun x => x.product_name)

/-- Key lookup into a summary table (the row a merge aligns for key `p`). -/
def lookupP (s : List PSummary) (p : String) : Option PSummary :=
  s.find? (fun x => decide (x.product_name = p))

/-- Row of the first outer merge (line 119), before `fillna`: pandas NaN
cells are modelled as `none`. -/
structure M2Row where
  product_name : String
  ytd_sales : Option ℚ
  ytd_quantity : Option ℚ
  pytd_sales : Option ℚ
  pytd_quantity : Option ℚ
deriving DecidableEq

/-- Row of the second outer merge (line 120), before `fillna`. -/
structure M3Row where
  product_name : String
  ytd_sales : Option ℚ
  ytd_quantity : Option ℚ
  pytd_sales : Option ℚ
  pytd_quantity : Option ℚ
  p1ytd_sales : Option ℚ
  p1ytd_quantity : Option ℚ
deriving DecidableEq

/-- `ytd_summary.merge(pytd_summary, on="product_name", how="outer")`:
key set is the union of both key sets; a key missing on one side leaves
the cells of that side as NaN (`none`). -/
def mergeOuter12 (s1 s2 : List PSummary) : List M2Row :=
  (summaryKeys s1 ++ summaryKeys s2).dedup.map (fun p =>
    ⟨p, (lookupP s1 p).map PSummary.sales_total, (lookupP s1 p).map PSummary.qty_total,
        (lookupP s2 p).map PSummary.sales_total, (lookupP s2 p).map PSummary.qty_total⟩)

/-- Key lookup into the intermediate merged table. -/
def lookupM2 (m : List M2Row) (p : String) : Option M2Row :=
  m.find? (fun x => decide (x.product_name = p))

/-- `metrics.merge(p1ytd_summary, on="product_name", how="outer")`. -/
def mergeOuter123 (m : List M2Row) (s3 : List PSummary) : List M3Row :=
  ((m.map (fun x => x.product_name)) ++ summaryKeys s3).dedup.map (fun p =>
    ⟨p, (lookupM2 m p).bind M2Row.ytd_sales, (lookupM2 m p).bind M2Row.ytd_quantity,
        (lookupM2 m p).bind M2Row.pytd_sales, (lookupM2 m p).bind M2Row.pytd_quantity,
        (lookupP s3 p).map PSummary.sales_total, (lookupP s3 p).map PSummary.qty_total⟩)

/-- `metrics.fillna(0)` on one cell (line 123). -/
def fillna0 (v : Option ℚ) : ℚ :=
  v.getD 0

/-- Output row of `calculate_ytd_metrics` (after `fillna(0)` and the
`as_of_date` / `fiscal_year` columns of lines 126-127). -/
structure MetricsRow where
  product_name : String
  ytd_sales : ℚ
  ytd_quantity : ℚ
  pytd_sales : ℚ
  pytd_quantity : ℚ
  p1ytd_sales : ℚ
  p1ytd_quantity : ℚ
  as_of_date : Date
  fiscal_year : String
deriving DecidableEq

/-- The YTD per-product summary of lines 95/100-104. -/
def ytd_summary (rs : List SalesRecord) (a : Date) : List PSummary :=
  summarize (filterWindow rs (ytdWindows a).ytd_start (ytdWindows a).ytd_end)

/-- The PYTD per-product summary of lines 96/106-110. -/
def pytd_summary (rs : List SalesRecord) (a : Date) : List PSummary :=
  summarize (filterWindow rs (ytdWindows a).pytd_start (ytdWindows a).pytd_end)

/-- The P1YTD per-product summary of lines 97/112-116. -/
def p1ytd_summary (rs : List SalesRecord) (a : Date) : List PSummary :=
  summarize (filterWindow rs (ytdWindows a).p1ytd_start (ytdWindows a).p1ytd_end)

/-- `calculate_ytd_metrics` (lines 57-129) on parsed records with a
resolved as-of date: filter the three windows, aggregate per product,
outer-merge twice, `fillna(0)`, attach `as_of_date` and `fiscal_year`. -/
def calculate_ytd_metrics_core (rs : List SalesRecord) (as_of_date : Date) : List MetricsRow :=
  let current_fy := get_fiscal_year as_of_date
  let merged := mergeOuter123
    (mergeOuter12 (ytd_summary rs as_of_date) (pytd_summary rs as_of_date))
    (p1ytd_summary rs as_of_date)
  merged.map (fun x =>
    ⟨x.product_name, fillna0 x.ytd_sales, fillna0 x.ytd_quantity,
      fillna0 x.pytd_sales, fillna0 x.pytd_quantity,
      fillna0 x.p1ytd_sales, fillna0 x.p1ytd_quantity,
      as_of_date, current_fy⟩)

/-- `series.max()` helper: fold keeping the chronologically later date. -/
def maxDateFold (d : Date) (l : List Date) : Date :=
  l.foldl (fun m x => if toOrd m < toOrd x then x else m) d

/-- `df["date"].max()`: `none` on an empty column. -/
def seriesMax : List Date → Option Date
  | [] => none
  | d :: l => some (maxDateFold d l)

/-- Lines 71-73: `if as_of_date is None: as_of_date = df["date"].max()`. -/
def resolveAsOf (rs : List SalesRecord) : Option Date → Option Date
  | some a => some a
  | none => seriesMax (rs.map (fun r => r.date))

/-- `calculate_ytd_metrics` on parsed records, with the optional
`as_of_date` argument; `none` output models the failure Python hits when
the frame is empty and no as-of date is given (`NaT`). -/
def calculate_ytd_metrics (rs : List SalesRecord) (as_of_date : Option Date) :
    Option (List MetricsRow) :=
  (resolveAsOf rs as_of_date).map (fun a => calculate_ytd_metrics_core rs a)

/-- A pandas float cell as the growth-percentage columns can hold it:
a finite value, `inf`, `-inf`, or `NaN`. -/
inductive FVal where
  | fin : ℚ → FVal
  | pinf : FVal
  | ninf : FVal
  | nan : FVal
deriving DecidableEq, Inhabited

/-- IEEE-754 division of two finite column values, as pandas evaluates
`(a / b)` element-wise: a nonzero value over zero gives a signed
infinity, zero over zero gives `NaN`, otherwise the exact quotient. -/
def fdiv (a b : ℚ) : FVal :=
  if b = 0 then (if a = 0 then FVal.nan else if 0 < a then FVal.pinf else FVal.ninf)
  else FVal.fin (a / b)

/-- Multiplication of a column cell by the positive literal `100`. -/
def fscale100 : FVal → FVal
  | FVal.fin q => FVal.fin (q * 100)
  | FVal.pinf => FVal.pinf
  | FVal.ninf => FVal.ninf
  | FVal.nan => FVal.nan

/-- `.replace([float("inf"), -float("inf")], 0)` on one cell (lines
150-151): both infinities become `0`; `NaN` is not in the replacement
list and passes through. -/
def replaceInf0 : FVal → FVal
  | FVal.pinf => FVal.fin 0
  | FVal.ninf => FVal.fin 0
  | v => v

/-- Output row of `calculate_deltas` (lines 132-165): the input columns
plus the delta, growth, quantity-delta, absolute-delta and performance
columns. -/
structure DeltaRow extends MetricsRow where
  delta_ytd_pytd : ℚ
  delta_ytd_p1ytd : ℚ
  delta_pytd_p1ytd : ℚ
  growth_ytd_vs_pytd_pct : FVal
  growth_ytd_vs_p1ytd_pct : FVal
  qty_delta_ytd_pytd : ℚ
  qty_delta_ytd_p1ytd : ℚ
  abs_delta_ytd_pytd : ℚ
  performance : String
deriving DecidableEq

/-- `calculate_deltas` (lines 132-165). It copies the input
(`df = metrics.copy()`) and computes each derived column row-wise. -/
def calculate_deltas (metrics : List MetricsRow) : List DeltaRow :=
  metrics.map (fun r =>
    { toMetricsRow := r
      delta_ytd_pytd := r.ytd_sales - r.pytd_sales
      delta_ytd_p1ytd := r.ytd_sales - r.p1ytd_sales
      delta_pytd_p1ytd := r.pytd_sales - r.p1ytd_sales
      growth_ytd_vs_pytd_pct :=
        replaceInf0 (fscale100 (fdiv (r.ytd_sales - r.pytd_sales) r.pytd_sales))
      growth_ytd_vs_p1ytd_pct :=
        replaceInf0 (fscale100 (fdiv (r.ytd_sales - r.p1ytd_sales) r.p1ytd_sales))
      qty_delta_ytd_pytd := r.ytd_quantity - r.pytd_quantity
      qty_delta_ytd_p1ytd := r.ytd_quantity - r.p1ytd_quantity
      abs_delta_ytd_pytd :=
        if r.ytd_sales - r.pytd_sales < 0 then -(r.ytd_sales - r.pytd_sales)
        else r.ytd_sales - r.pytd_sales
      performance :=
        if 0 < r.ytd_sales - r.pytd_sales then "Growing"
        else if r.ytd_sales - r.pytd_sales < 0 then "Declining"
        else "Stable" })

/-- A cell of the raw `date` column before `pd.to_datetime`: an
already-parsed timestamp, a well-formed date string (remembering the
date it denotes), or a malformed string. -/
inductive RawDate where
  | ts : Date → RawDate
  | str : Date → RawDate
  | malformed : String → RawDate
deriving DecidableEq

/-- One row of the table as the caller hands it over, with the raw
`date` column. -/
structure RawRecord where
  date : RawDate
  product_name : String
  sales_amount : ℚ
  quantity : ℚ
deriving DecidableEq

/-- Abstraction of `pd.to_datetime` on a single cell with the default
`errors="raise"`: parsed timestamps pass through, well-formed strings
parse to their date, malformed strings raise. -/
def parseDate : RawDate → Except String Date
  | RawDate.ts d => Except.ok d
  | RawDate.str d => Except.ok d
  | RawDate.malformed s => Except.error s

/-- `pd.to_datetime(df["date"])` over the whole column: the first
malformed cell raises and the whole conversion fails. -/
def parseRecords : List RawRecord → Except String (List SalesRecord)
  | [] => Except.ok []
  | r :: rest =>
    match parseDate r.date with
    | Except.error e => Except.error e
    | Except.ok d =>
      match parseRecords rest with
      | Except.error e => Except.error e
      | Except.ok tl => Except.ok (⟨d, r.product_name, r.sales_amount, r.quantity⟩ :: tl)

/-- The row as it looks after the parsed date column is written back
into the input frame (line 69). -/
def toTs (r : SalesRecord) : RawRecord :=
  ⟨RawDate.ts r.date, r.product_name, r.sales_amount, r.quantity⟩

/-- `calculate_ytd_metrics` as the caller observes it: line 69 writes
`df["date"] = pd.to_datetime(df["date"])` back into the frame of the caller,
so the wrapper returns the post-call state of the input table next to
the result. A parse failure raises before the assignment, leaving the
input unchanged; an empty frame with no as-of date fails on `NaT`. -/
def calculate_ytd_metrics_run (df : List RawRecord) (as_of_date : Option Date) :
    List RawRecord × Except String (List MetricsRow) :=
  match parseRecords df with
  | Except.error e => (df, Except.error e)
  | Except.ok recs =>
    match resolveAsOf recs as_of_date with
    | none => (recs.map toTs, Except.error "NaT as-of date")
    | some a => (recs.map toTs, Except.ok (calculate_ytd_metrics_core recs a))

/-- `calculate_deltas` as the caller observes it: it works on
`metrics.copy()` (line 142) and never writes to its input. -/
def calculate_deltas_run (metrics : List MetricsRow) :
    List MetricsRow × List DeltaRow :=
  (metrics, calculate_deltas metrics)

/-- Output row of `get_monthly_trends` (lines 168-189): `year_month`
truncated to the first day of the month (`to_period("M").to_timestamp()`),
the fiscal year of the own date of the record, and the group sums. -/
structure MonthlyRow where
  year_month : Date
  fiscal_year : String
  product_name : String
  sales_amount : ℚ
  quantity : ℚ
deriving DecidableEq

/-- The grouping key of `get_monthly_trends`: calendar month, fiscal
year of the own date of the record, product. -/
def monthlyKey (r : SalesRecord) : (ℤ × ℤ) × String × String :=
  ((r.date.year, r.date.month), get_fiscal_year r.date, r.product_name)

/-- `get_monthly_trends` on parsed records: group by
`["year_month", "fiscal_year", "product_name"]` and sum. -/
def get_monthly_trends_core (rs : List SalesRecord) : List MonthlyRow :=
  ((rs.map monthlyKey).dedup).map (fun k =>
    let sel := rs.filter (fun r => decide (monthlyKey r = k))
    ⟨⟨k.1.1, k.1.2, 1⟩, k.2.1, k.2.2,
      (sel.map (fun r => r.sales_amount)).sum, (sel.map (fun r => r.quantity)).sum⟩)

/-- `get_monthly_trends` as the caller observes it: lines 178-180 write
the parsed `date` column (and further helper columns, not representable
in the input schema) onto the frame of the caller; the returned state records
the rewritten `date` column. -/
def get_monthly_trends_run (df : List RawRecord) :
    List RawRecord × Except String (List MonthlyRow) :=
  match parseRecords df with
  | Except.error e => (df, Except.error e)
  | Except.ok recs => (recs.map toTs, Except.ok (get_monthly_trends_core recs))

/-- `get_category_performance` (lines 192-211) as the caller observes
it: it copies the input frame (line 204) and writes only to copies, so
the frame of the caller is never touched — but the call never returns a
rollup either. The rename at line 208 turns the `category` column into
a second `product_name` column next to the original one, so the
`groupby("product_name")` inside `calculate_ytd_metrics` raises
`ValueError: Grouper for product_name not 1-dimensional` on every input
that survives date parsing (a malformed date raises the parse error
first, and an empty frame fails on the `NaT` as-of date before the
groupby). -/
def get_category_performance_run (df : List RawRecord)
    (product_category_map : List (String × String)) :
    List RawRecord × Except String (List DeltaRow) :=
  match parseRecords df with
  | Except.error e => (df, Except.error e)
  | Except.ok recs =>
    match resolveAsOf recs none with
    | none => (df, Except.error "NaT as-of date")
    | some _ => (df, Except.error "Grouper for product_name not 1-dimensional")

lemma find?_map_mk {α : Type} (keys : List String) (mk : String → α) (key : α → String)
    (hk : ∀ p, key (mk p) = p) (p : String) :
    (keys.map mk).find? (fun x => decide (key x = p)) =
      if p ∈ keys then some (mk p) else none := by
  induction keys with
  | nil => simp
  | cons q rest ih =>
    simp only [List.map_cons, List.find?]
    by_cases hq : q = p
    · subst hq
      simp [hk]
    · rw [show (decide (key (mk q) = p)) = false from by simp [hk, hq]]
      rw [ih]
      by_cases hp : p ∈ rest
      · simp [hp]
      · simp [hp, hq, Ne.symm hq]

lemma keys_map_mk {α : Type} (keys : List String) (mk : String → α) (key : α → String)
    (hk : ∀ p, key (mk p) = p) :
    (keys.map mk).map key = keys := by
  rw [List.map_map]
  have : key ∘ mk = id := funext fun p => hk p
  rw [this, List.map_id]

lemma summaryKeys_summarize (rs : List SalesRecord) :
    summaryKeys (summarize rs) = (rs.map (fun r => r.product_name)).dedup := by
  unfold summaryKeys summarize
  exact keys_map_mk _ _ _ (fun p => rfl)

lemma lookupP_summarize (rs : List SalesRecord) (p : String) :
    lookupP (summarize rs) p =
      if p ∈ (rs.map (fun r => r.product_name)).dedup then
        some ⟨p, salesOf rs p, qtyOf rs p⟩
      else none := by
  unfold lookupP summarize
  exact find?_map_mk _ _ _ (fun q => rfl) p

lemma lookupP_none_iff (rs : List SalesRecord) (p : String) :
    lookupP (summarize rs) p = none ↔ p ∉ summaryKeys (summarize rs) := by
  rw [lookupP_summarize, summaryKeys_summarize]
  by_cases hp : p ∈ (rs.map (fun r => r.product_name)).dedup <;> simp [hp]

/-- C2: for a valid calendar date, `get_fiscal_year` picks the fiscal
year starting in `year - 1` for months 1-3 and in `year` for months
4-12, and formats it as `"FY {start year}-{last two digits of end
year}"`; the function is a pure total function of the date. -/
theorem get_fiscal_year_spec (d : Date) (hm1 : 1 ≤ d.month) (hm2 : d.month ≤ 12) :
    (d.month ≤ 3 →
      get_fiscal_year d =
        "FY " ++ toString (d.year - 1) ++ "-" ++ lastTwoChars (toString d.year)) ∧
    (4 ≤ d.month →
      get_fiscal_year d =
        "FY " ++ toString d.year ++ "-" ++ lastTwoChars (toString (d.year + 1))) := by
  constructor
  · intro h3
    unfold get_fiscal_year
    rw [if_neg (by omega)]
  · intro h4
    unfold get_fiscal_year
    rw [if_pos (by omega)]

/-- Witness for C2 at 2024-01-15 (a January-March date) and 2023-04-10
(an April-December date). -/
theorem get_fiscal_year_spec_witness :
    get_fiscal_year ⟨2024, 1, 15⟩ = "FY 2023-24" ∧
    get_fiscal_year ⟨2023, 4, 10⟩ = "FY 2023-24" :=
  ⟨((get_fiscal_year_spec ⟨2024, 1, 15⟩ (by decide) (by decide)).1 (by decide)).trans
    (by decide),
   ((get_fiscal_year_spec ⟨2023, 4, 10⟩ (by decide) (by decide)).2 (by decide)).trans
    (by decide)⟩

/-- C3: for every as-of date, the PYTD window bounds are the YTD window
bounds shifted back by exactly 365 calendar days, and the P1YTD bounds
by exactly 730 days — a fixed day offset on the ordinal timeline, not a
fiscal-year-aware shift. -/
theorem windows_fixed_offset (as_of_date : Date) :
    toOrd (ytdWindows as_of_date).pytd_start = toOrd (ytdWindows as_of_date).ytd_start - 365 ∧
    toOrd (ytdWindows as_of_date).pytd_end = toOrd (ytdWindows as_of_date).ytd_end - 365 ∧
    toOrd (ytdWindows as_of_date).p1ytd_start = toOrd (ytdWindows as_of_date).ytd_start - 730 ∧
    toOrd (ytdWindows as_of_date).p1ytd_end = toOrd (ytdWindows as_of_date).ytd_end - 730 := by
  refine ⟨?_, ?_, ?_, ?_⟩ <;>
    simp only [ytdWindows, subDays] <;>
    exact toOrd_fromOrd _

lemma lookupM2_mergeOuter12 (s1 s2 : List PSummary) (p : String) :
    lookupM2 (mergeOuter12 s1 s2) p =
      if p ∈ (summaryKeys s1 ++ summaryKeys s2).dedup then
        some ⟨p, (lookupP s1 p).map PSummary.sales_total, (lookupP s1 p).map PSummary.qty_total,
              (lookupP s2 p).map PSummary.sales_total, (lookupP s2 p).map PSummary.qty_total⟩
      else none := by
  unfold lookupM2 mergeOuter12
  exact find?_map_mk _ _ _ (fun q => rfl) p

lemma mergeKeys_mem (rs : List SalesRecord) (a : Date) (p : String) :
    p ∈ ((mergeOuter12 (ytd_summary rs a) (pytd_summary rs a)).map (fun x => x.product_name)
        ++ summaryKeys (p1ytd_summary rs a)).dedup ↔
      (p ∈ summaryKeys (ytd_summary rs a) ∨ p ∈ summaryKeys (pytd_summary rs a) ∨
        p ∈ summaryKeys (p1ytd_summary rs a)) := by
  have h12 : (mergeOuter12 (ytd_summary rs a) (pytd_summary rs a)).map
      (fun x => x.product_name) =
      (summaryKeys (ytd_summary rs a) ++ summaryKeys (pytd_summary rs a)).dedup := by
    unfold mergeOuter12
    exact keys_map_mk _ _ _ (fun q => rfl)
  rw [h12]
  simp [List.mem_dedup, List.mem_append, or_assoc]

lemma core_rows (rs : List SalesRecord) (a : Date) (row : MetricsRow) :
    row ∈ calculate_ytd_metrics_core rs a ↔
      ∃ p, (p ∈ ((mergeOuter12 (ytd_summary rs a) (pytd_summary rs a)).map
          (fun x => x.product_name) ++ summaryKeys (p1ytd_summary rs a)).dedup) ∧
        row = ⟨p,
          fillna0 ((lookupM2 (mergeOuter12 (ytd_summary rs a) (pytd_summary rs a)) p).bind
            M2Row.ytd_sales),
          fillna0 ((lookupM2 (mergeOuter12 (ytd_summary rs a) (pytd_summary rs a)) p).bind
            M2Row.ytd_quantity),
          fillna0 ((lookupM2 (mergeOuter12 (ytd_summary rs a) (pytd_summary rs a)) p).bind
            M2Row.pytd_sales),
          fillna0 ((lookupM2 (mergeOuter12 (ytd_summary rs a) (pytd_summary rs a)) p).bind
            M2Row.pytd_quantity),
          fillna0 ((lookupP (p1ytd_summary rs a) p).map PSummary.sales_total),
          fillna0 ((lookupP (p1ytd_summary rs a) p).map PSummary.qty_total),
          a, get_fiscal_year a⟩ := by
  unfold calculate_ytd_metrics_core mergeOuter123
  rw [List.map_map]
  simp only [List.mem_map, Function.comp]
  constructor
  · rintro ⟨p, hp, rfl⟩
    exact ⟨p, hp, rfl⟩
  · rintro ⟨p, hp, rfl⟩
    exact ⟨p, hp, rfl⟩

/-- C4: the merge of the three per-period summaries is a full outer join
on `product_name` — the product set of the output is exactly the union of the
three input key sets; every sales and quantity field of a product absent
from a window is filled with `0` (not omitted, not `none`); and the same
`as_of_date` and `fiscal_year` are attached to every output row. -/
theorem metrics_outer_join (rs : List SalesRecord) (a : Date) :
    (∀ p : String,
      (∃ row ∈ calculate_ytd_metrics_core rs a, row.product_name = p) ↔
        (p ∈ summaryKeys (ytd_summary rs a) ∨ p ∈ summaryKeys (pytd_summary rs a) ∨
          p ∈ summaryKeys (p1ytd_summary rs a))) ∧
    (∀ row ∈ calculate_ytd_metrics_core rs a,
      (row.product_name ∉ summaryKeys (ytd_summary rs a) →
        row.ytd_sales = 0 ∧ row.ytd_quantity = 0) ∧
      (row.product_name ∉ summaryKeys (pytd_summary rs a) →
        row.pytd_sales = 0 ∧ row.pytd_quantity = 0) ∧
      (row.product_name ∉ summaryKeys (p1ytd_summary rs a) →
        row.p1ytd_sales = 0 ∧ row.p1ytd_quantity = 0) ∧
      row.as_of_date = a ∧ row.fiscal_year = get_fiscal_year a) := by
  constructor
  · intro p
    constructor
    · rintro ⟨row, hrow, rfl⟩
      obtain ⟨q, hq, rfl⟩ := (core_rows rs a row).mp hrow
      exact (mergeKeys_mem rs a q).mp hq
    · intro hp
      refine ⟨_, (core_rows rs a _).mpr ⟨p, (mergeKeys_mem rs a p).mpr hp, rfl⟩, rfl⟩
  · intro row hrow
    obtain ⟨p, hp, rfl⟩ := (core_rows rs a row).mp hrow
    refine ⟨?_, ?_, ?_, rfl, rfl⟩
    · intro h1
      by_cases h12 : p ∈ (summaryKeys (ytd_summary rs a) ++
          summaryKeys (pytd_summary rs a)).dedup
      · rw [lookupM2_mergeOuter12, if_pos h12]
        have hnone : lookupP (ytd_summary rs a) p = none := by
          unfold ytd_summary at h1 ⊢
          exact (lookupP_none_iff _ p).mpr h1
        simp [hnone, fillna0]
      · rw [lookupM2_mergeOuter12, if_neg h12]
        simp [fillna0]
    · intro h2
      by_cases h12 : p ∈ (summaryKeys (ytd_summary rs a) ++
          summaryKeys (pytd_summary rs a)).dedup
      · rw [lookupM2_mergeOuter12, if_pos h12]
        have hnone : lookupP (pytd_summary rs a) p = none := by
          unfold pytd_summary at h2 ⊢
          exact (lookupP_none_iff _ p).mpr h2
        simp [hnone, fillna0]
      · rw [lookupM2_mergeOuter12, if_neg h12]
        simp [fillna0]
    · intro h3
      have hnone : lookupP (p1ytd_summary rs a) p = none := by
        unfold p1ytd_summary at h3 ⊢
        exact (lookupP_none_iff _ p).mpr h3
      simp [hnone, fillna0]

/-- C5: on every row `calculate_deltas` produces, the `performance`
label is `"Growing"` iff `delta_ytd_pytd > 0`, `"Declining"` iff
`delta_ytd_pytd < 0`, and `"Stable"` iff it is zero; exactly these three
labels occur, mutually exclusive and exhaustive. -/
theorem performance_trichotomy (metrics : List MetricsRow) (row : DeltaRow)
    (hrow : row ∈ calculate_deltas metrics) :
    (row.performance = "Growing" ↔ 0 < row.delta_ytd_pytd) ∧
    (row.performance = "Declining" ↔ row.delta_ytd_pytd < 0) ∧
    (row.performance = "Stable" ↔ row.delta_ytd_pytd = 0) ∧
    (row.performance = "Growing" ∨ row.performance = "Declining" ∨
      row.performance = "Stable") := by
  simp only [calculate_deltas, List.mem_map] at hrow
  obtain ⟨r, hr, rfl⟩ := hrow
  dsimp only
  rcases lt_trichotomy (r.ytd_sales - r.pytd_sales) 0 with h | h | h
  · rw [if_neg (by linarith), if_pos h]
    exact ⟨iff_of_false (by decide) (by linarith),
      iff_of_true rfl h,
      iff_of_false (by decide) (ne_of_lt h),
      Or.inr (Or.inl rfl)⟩
  · rw [if_neg (by linarith), if_neg (by linarith)]
    exact ⟨iff_of_false (by decide) (by linarith),
      iff_of_false (by decide) (by linarith),
      iff_of_true rfl h,
      Or.inr (Or.inr rfl)⟩
  · rw [if_pos h]
    exact ⟨iff_of_true rfl h,
      iff_of_false (by decide) (by linarith),
      iff_of_false (by decide) (by linarith),
      Or.inl rfl⟩

/-- Witness for C5: the product with YTD 5 and PYTD 4 is classified
`"Growing"`. -/
theorem performance_trichotomy_witness :
    (⟨⟨"A", 5, 2, 4, 1, 1, 1, ⟨2023, 4, 10⟩, "FY 2023-24"⟩,
      1, 4, 3, FVal.fin 25, FVal.fin 400, 1, 1, 1, "Growing"⟩ : DeltaRow).performance =
      "Growing" := by
  have hmem : (⟨⟨"A", 5, 2, 4, 1, 1, 1, ⟨2023, 4, 10⟩, "FY 2023-24"⟩,
      1, 4, 3, FVal.fin 25, FVal.fin 400, 1, 1, 1, "Growing"⟩ : DeltaRow) ∈
      calculate_deltas [⟨"A", 5, 2, 4, 1, 1, 1, ⟨2023, 4, 10⟩, "FY 2023-24"⟩] := by
    have hcalc : calculate_deltas [⟨"A", 5, 2, 4, 1, 1, 1, ⟨2023, 4, 10⟩, "FY 2023-24"⟩] =
        [⟨⟨"A", 5, 2, 4, 1, 1, 1, ⟨2023, 4, 10⟩, "FY 2023-24"⟩,
          1, 4, 3, FVal.fin 25, FVal.fin 400, 1, 1, 1, "Growing"⟩] := by
      simp only [calculate_deltas, List.map]
      norm_num [fdiv, fscale100, replaceInf0]
    rw [hcalc]
    exact List.mem_singleton.mpr rfl
  exact (performance_trichotomy [⟨"A", 5, 2, 4, 1, 1, 1, ⟨2023, 4, 10⟩, "FY 2023-24"⟩]
    ⟨⟨"A", 5, 2, 4, 1, 1, 1, ⟨2023, 4, 10⟩, "FY 2023-24"⟩,
      1, 4, 3, FVal.fin 25, FVal.fin 400, 1, 1, 1, "Growing"⟩ hmem).1.mpr (by norm_num)

lemma summarize_keys_exist (X : List SalesRecord) (p : String) :
    (∃ row ∈ summarize X, row.product_name = p) ↔ ∃ r ∈ X, r.product_name = p := by
  constructor
  · rintro ⟨row, hrow, rfl⟩
    simp only [summarize, List.mem_map] at hrow
    obtain ⟨q, hq, rfl⟩ := hrow
    rw [List.mem_dedup] at hq
    simp only [List.mem_map] at hq
    obtain ⟨r, hr, hpr⟩ := hq
    exact ⟨r, hr, hpr⟩
  · rintro ⟨r, hr, rfl⟩
    refine ⟨⟨r.product_name, salesOf X r.product_name, qtyOf X r.product_name⟩, ?_, rfl⟩
    simp only [summarize, List.mem_map]
    refine ⟨r.product_name, ?_, rfl⟩
    rw [List.mem_dedup]
    exact List.mem_map_of_mem _ hr

/-- C6: period aggregation keeps exactly the records with
`window.start <= date <= window.end` (both bounds inclusive) and groups
them by `product_name`: every product with an in-window record gets a
group row, each group row comes from an in-window record and carries
the sums of `sales_amount` and `quantity` over its group, and a window
containing no record yields an empty sequence (not an error). -/
theorem aggregate_window_spec (rs : List SalesRecord) (ws we : Date) :
    (∀ r : SalesRecord, r ∈ filterWindow rs ws we ↔
      (r ∈ rs ∧ toOrd ws ≤ toOrd r.date ∧ toOrd r.date ≤ toOrd we)) ∧
    (∀ row ∈ summarize (filterWindow rs ws we),
      (∃ r ∈ filterWindow rs ws we, r.product_name = row.product_name) ∧
      row.sales_total = salesOf (filterWindow rs ws we) row.product_name ∧
      row.qty_total = qtyOf (filterWindow rs ws we) row.product_name) ∧
    ((∀ r ∈ rs, ¬ (toOrd ws ≤ toOrd r.date ∧ toOrd r.date ≤ toOrd we)) →
      summarize (filterWindow rs ws we) = []) ∧
    (∀ r ∈ rs, toOrd ws ≤ toOrd r.date → toOrd r.date ≤ toOrd we →
      ∃ row ∈ summarize (filterWindow rs ws we), row.product_name = r.product_name) := by
  refine ⟨?_, ?_, ?_, ?_⟩
  · intro r
    simp [filterWindow, List.mem_filter, dateLe, and_assoc]
  · intro row hrow
    simp only [summarize, List.mem_map] at hrow
    obtain ⟨p, hp, rfl⟩ := hrow
    refine ⟨?_, rfl, rfl⟩
    rw [List.mem_dedup] at hp
    simp only [List.mem_map] at hp
    obtain ⟨r, hr, hpr⟩ := hp
    exact ⟨r, hr, hpr⟩
  · intro hnone
    have hfil : filterWindow rs ws we = [] := by
      unfold filterWindow
      rw [List.filter_eq_nil]
      intro r hr
      simp only [dateLe, Bool.and_eq_true, decide_eq_true_eq]
      intro hc
      exact hnone r hr ⟨hc.1, hc.2⟩
    rw [hfil]
    rfl
  · intro r hr h1 h2
    have hrf : r ∈ filterWindow rs ws we := by
      unfold filterWindow
      rw [List.mem_filter]
      refine ⟨hr, ?_⟩
      simp [dateLe, h1, h2]
    exact (summarize_keys_exist (filterWindow rs ws we) r.product_name).mpr ⟨r, hrf, rfl⟩

/-- Witness for C6: a record on the window boundary is kept, a window
containing no record aggregates to the empty table, and the product of
an in-window record shows up in the aggregated table. -/
theorem aggregate_window_spec_witness :
    ((⟨⟨2023, 4, 1⟩, "A", 10, 1⟩ : SalesRecord) ∈
      filterWindow [⟨⟨2023, 4, 1⟩, "A", 10, 1⟩, ⟨⟨2024, 7, 1⟩, "B", 3, 1⟩]
        ⟨2023, 4, 1⟩ ⟨2023, 4, 10⟩) ∧
    summarize (filterWindow [⟨⟨2022, 1, 1⟩, "A", 10, 1⟩] ⟨2023, 4, 1⟩ ⟨2023, 4, 10⟩) = [] ∧
    summarize (filterWindow [⟨⟨2023, 4, 1⟩, "A", 10, 1⟩, ⟨⟨2024, 7, 1⟩, "B", 3, 1⟩]
      ⟨2023, 4, 1⟩ ⟨2023, 4, 10⟩) ≠ [] := by
  refine ⟨?_, ?_, ?_⟩
  · exact (aggregate_window_spec
      [⟨⟨2023, 4, 1⟩, "A", 10, 1⟩, ⟨⟨2024, 7, 1⟩, "B", 3, 1⟩]
      ⟨2023, 4, 1⟩ ⟨2023, 4, 10⟩).1 _ |>.mpr (by decide)
  · exact (aggregate_window_spec [⟨⟨2022, 1, 1⟩, "A", 10, 1⟩]
      ⟨2023, 4, 1⟩ ⟨2023, 4, 10⟩).2.2.1 (by decide)
  · obtain ⟨row, hrow, hname⟩ := (aggregate_window_spec
      [⟨⟨2023, 4, 1⟩, "A", 10, 1⟩, ⟨⟨2024, 7, 1⟩, "B", 3, 1⟩]
      ⟨2023, 4, 1⟩ ⟨2023, 4, 10⟩).2.2.2 ⟨⟨2023, 4, 1⟩, "A", 10, 1⟩
      (List.mem_cons_self _ _) (by decide) (by decide)
    intro hc
    rw [hc] at hrow
    cases hrow

/-- C9: per-product aggregation is additive over disjoint record sets:
aggregating the concatenation gives, for every product, the sum of the
separate per-product totals, and the product set of the combined
summary is the union of the separate product sets. -/
theorem aggregation_additive (A B : List SalesRecord)
    (hdisj : ∀ r ∈ A, r ∉ B) :
    (∀ p : String,
      salesOf (A ++ B) p = salesOf A p + salesOf B p ∧
      qtyOf (A ++ B) p = qtyOf A p + qtyOf B p) ∧
    (∀ p : String,
      ((∃ row ∈ summarize (A ++ B), row.product_name = p) ↔
        ((∃ row ∈ summarize A, row.product_name = p) ∨
          (∃ row ∈ summarize B, row.product_name = p)))) := by
  constructor
  · intro p
    constructor
    · simp [salesOf, List.filter_append]
    · simp [qtyOf, List.filter_append]
  · intro p
    rw [summarize_keys_exist, summarize_keys_exist, summarize_keys_exist]
    constructor
    · rintro ⟨r, hr, rfl⟩
      rcases List.mem_append.mp hr with h | h
      · exact Or.inl ⟨r, h, rfl⟩
      · exact Or.inr ⟨r, h, rfl⟩
    · rintro (⟨r, hr, rfl⟩ | ⟨r, hr, rfl⟩)
      · exact ⟨r, List.mem_append.mpr (Or.inl hr), rfl⟩
      · exact ⟨r, List.mem_append.mpr (Or.inr hr), rfl⟩

/-- Witness for C9 on two disjoint one-record sets for the same product. -/
theorem aggregation_additive_witness :
    salesOf ([⟨⟨2023, 4, 1⟩, "A", 10, 1⟩] ++ [⟨⟨2023, 5, 1⟩, "A", 7, 2⟩]) "A" =
      salesOf [⟨⟨2023, 4, 1⟩, "A", 10, 1⟩] "A" + salesOf [⟨⟨2023, 5, 1⟩, "A", 7, 2⟩] "A" :=
  ((aggregation_additive [⟨⟨2023, 4, 1⟩, "A", 10, 1⟩] [⟨⟨2023, 5, 1⟩, "A", 7, 2⟩]
    (by intro r hr; simp at hr; subst hr; intro hc; simp at hc)).1 "A").1

lemma maxDateFold_spec (l : List Date) : ∀ d : Date,
    (maxDateFold d l = d ∨ maxDateFold d l ∈ l) ∧
    toOrd d ≤ toOrd (maxDateFold d l) ∧
    ∀ x ∈ l, toOrd x ≤ toOrd (maxDateFold d l) := by
  induction l with
  | nil =>
    intro d
    exact ⟨Or.inl rfl, le_refl _, by intro x hx; cases hx⟩
  | cons y ys ih =>
    intro d
    by_cases hc : toOrd d < toOrd y
    · have hstep : maxDateFold d (y :: ys) = maxDateFold y ys := by
        unfold maxDateFold
        rw [List.foldl_cons, if_pos hc]
      have hih := ih y
      rw [hstep]
      refine ⟨?_, ?_, ?_⟩
      · rcases hih.1 with h1 | h1
        · right
          rw [h1]
          exact List.mem_cons_self y ys
        · right
          exact List.mem_cons_of_mem y h1
      · exact le_trans (le_of_lt hc) hih.2.1
      · intro x hx
        rcases List.mem_cons.mp hx with rfl | hx2
        · exact hih.2.1
        · exact hih.2.2 x hx2
    · have hstep : maxDateFold d (y :: ys) = maxDateFold d ys := by
        unfold maxDateFold
        rw [List.foldl_cons, if_neg hc]
      have hih := ih d
      rw [hstep]
      refine ⟨?_, ?_, ?_⟩
      · rcases hih.1 with h1 | h1
        · left
          exact h1
        · right
          exact List.mem_cons_of_mem y h1
      · exact hih.2.1
      · intro x hx
        rcases List.mem_cons.mp hx with rfl | hx2
        · exact le_trans (le_of_not_lt hc) hih.2.1
        · exact hih.2.2 x hx2

/-- C10: when no as-of date is supplied, `calculate_ytd_metrics` uses
the maximum date of the input records, so for every non-empty record
set the YTD window ends at the latest record date. -/
theorem as_of_defaults_to_max (rs : List SalesRecord) (hne : rs ≠ []) :
    ∃ a : Date, resolveAsOf rs none = some a ∧
      calculate_ytd_metrics rs none = some (calculate_ytd_metrics_core rs a) ∧
      (ytdWindows a).ytd_end = a ∧
      a ∈ rs.map (fun r => r.date) ∧
      ∀ r ∈ rs, toOrd r.date ≤ toOrd a := by
  cases rs with
  | nil => exact absurd rfl hne
  | cons r0 rest =>
    refine ⟨maxDateFold r0.date (rest.map (fun r => r.date)), ?_, ?_, ?_, ?_, ?_⟩
    · rfl
    · rfl
    · unfold ytdWindows get_ytd_date_range
      split_ifs <;> rfl
    · rcases (maxDateFold_spec (rest.map (fun r => r.date)) r0.date).1 with h | h
      · rw [h]
        exact List.mem_cons_self _ _
      · exact List.mem_cons_of_mem _ h
    · intro r hr
      have hspec := maxDateFold_spec (rest.map (fun x => x.date)) r0.date
      rcases List.mem_cons.mp hr with h | h
      · rw [h]
        exact hspec.2.1
      · exact hspec.2.2 r.date (List.mem_map_of_mem _ h)

/-- Witness for C10: on a two-record set the resolved as-of date is the
later record date, and the YTD window ends there. -/
theorem as_of_defaults_to_max_witness :
    resolveAsOf [⟨⟨2023, 4, 1⟩, "A", 10, 1⟩, ⟨⟨2023, 5, 2⟩, "B", 3, 1⟩] none =
      some ⟨2023, 5, 2⟩ ∧
    (ytdWindows ⟨2023, 5, 2⟩).ytd_end = ⟨2023, 5, 2⟩ := by
  obtain ⟨a, h1, h2, h3, h4, h5⟩ :=
    as_of_defaults_to_max [⟨⟨2023, 4, 1⟩, "A", 10, 1⟩, ⟨⟨2023, 5, 2⟩, "B", 3, 1⟩]
      (by intro hc; cases hc)
  have ha : a = ⟨2023, 5, 2⟩ := by
    have hval : resolveAsOf [⟨⟨2023, 4, 1⟩, "A", 10, 1⟩, ⟨⟨2023, 5, 2⟩, "B", 3, 1⟩] none =
        some ⟨2023, 5, 2⟩ := by decide
    rw [h1] at hval
    exact Option.some.inj hval
  subst ha
  exact ⟨h1, h3⟩

lemma parseRecords_error_of_malformed (df : List RawRecord)
    (h : ∃ r ∈ df, ∃ s, r.date = RawDate.malformed s) :
    ∃ e, parseRecords df = Except.error e := by
  induction df with
  | nil =>
    obtain ⟨r, hr, _⟩ := h
    cases hr
  | cons r rest ih =>
    obtain ⟨r0, hr0, s, hs⟩ := h
    rcases List.mem_cons.mp hr0 with rfl | hmem
    · refine ⟨s, ?_⟩
      simp [parseRecords, hs, parseDate]
    · cases hp : parseDate r.date with
      | error e => exact ⟨e, by simp [parseRecords, hp]⟩
      | ok d =>
        obtain ⟨e, he⟩ := ih ⟨r0, hmem, s, hs⟩
        exact ⟨e, by simp [parseRecords, hp, he]⟩

/-- C8: an input containing a malformed (unparsable) date makes the
computation fail with the date-conversion error surfaced to the caller;
the record is not silently skipped. -/
theorem malformed_dates_error (df : List RawRecord) (as_of_date : Option Date)
    (h : ∃ r ∈ df, ∃ s, r.date = RawDate.malformed s) :
    ∃ e, (calculate_ytd_metrics_run df as_of_date).2 = Except.error e := by
  obtain ⟨e, he⟩ := parseRecords_error_of_malformed df h
  exact ⟨e, by simp [calculate_ytd_metrics_run, he]⟩

/-- Witness for C8: one malformed date string fails the whole call. -/
theorem malformed_dates_error_witness :
    (calculate_ytd_metrics_run [⟨RawDate.malformed "2023-13-45", "A", 10, 1⟩] none).2 =
      Except.error "2023-13-45" := by
  obtain ⟨e, he⟩ := malformed_dates_error [⟨RawDate.malformed "2023-13-45", "A", 10, 1⟩] none
    ⟨⟨RawDate.malformed "2023-13-45", "A", 10, 1⟩, List.mem_cons_self _ _, "2023-13-45", rfl⟩
  have hcomp : (calculate_ytd_metrics_run
      [⟨RawDate.malformed "2023-13-45", "A", 10, 1⟩] none).2 =
      Except.error "2023-13-45" := rfl
  exact hcomp

/-- C1 counterexample: a metrics row with `ytd_sales = 0` and
`pytd_sales = 0` (a product absent from both the YTD and PYTD windows)
gets growth `NaN`, not `0`: `0/0` is `NaN` and
`.replace([inf, -inf], 0)` does not touch `NaN`. -/
theorem growth_zero_denominator_cex :
    List.map DeltaRow.growth_ytd_vs_pytd_pct
        (calculate_deltas [⟨"A", 0, 0, 0, 0, 7, 2, ⟨2023, 4, 10⟩, "FY 2023-24"⟩]) =
      [FVal.nan] ∧ FVal.nan ≠ FVal.fin 0 := by
  constructor
  · simp only [calculate_deltas, List.map]
    norm_num [fdiv, fscale100, replaceInf0]
  · intro hc
    exact FVal.noConfusion hc

/-- C1 amended: on every row `calculate_deltas` produces, a zero
denominator gives growth `0` when the numerator period total is nonzero
(the ±infinity is replaced by `0`), and `NaN` when `ytd_sales` is also
zero (the `0/0` case is not covered by the infinity replacement). -/
theorem growth_zero_denominator (metrics : List MetricsRow) (row : DeltaRow)
    (hrow : row ∈ calculate_deltas metrics) :
    (row.pytd_sales = 0 →
      row.growth_ytd_vs_pytd_pct =
        (if row.ytd_sales = 0 then FVal.nan else FVal.fin 0)) ∧
    (row.p1ytd_sales = 0 →
      row.growth_ytd_vs_p1ytd_pct =
        (if row.ytd_sales = 0 then FVal.nan else FVal.fin 0)) := by
  simp only [calculate_deltas, List.mem_map] at hrow
  obtain ⟨r, hr, rfl⟩ := hrow
  dsimp only
  constructor
  · intro h0
    rw [h0, sub_zero]
    by_cases hy : r.ytd_sales = 0
    · rw [if_pos hy, hy]
      simp [fdiv, fscale100, replaceInf0]
    · rw [if_neg hy]
      rcases lt_or_gt_of_ne hy with hlt | hgt
      · have hfd : fdiv r.ytd_sales 0 = FVal.ninf := by
          simp [fdiv, hy, not_lt.mpr (le_of_lt hlt)]
        rw [hfd]
        rfl
      · have hfd : fdiv r.ytd_sales 0 = FVal.pinf := by
          simp [fdiv, hy, hgt]
        rw [hfd]
        rfl
  · intro h0
    rw [h0, sub_zero]
    by_cases hy : r.ytd_sales = 0
    · rw [if_pos hy, hy]
      simp [fdiv, fscale100, replaceInf0]
    · rw [if_neg hy]
      rcases lt_or_gt_of_ne hy with hlt | hgt
      · have hfd : fdiv r.ytd_sales 0 = FVal.ninf := by
          simp [fdiv, hy, not_lt.mpr (le_of_lt hlt)]
        rw [hfd]
        rfl
      · have hfd : fdiv r.ytd_sales 0 = FVal.pinf := by
          simp [fdiv, hy, hgt]
        rw [hfd]
        rfl

set_option maxRecDepth 100000 in
/-- Witness for the amended C1: YTD 50 against PYTD 0 gives growth
exactly `0` (the infinity case of the fallback). -/
theorem growth_zero_denominator_witness :
    (⟨⟨"B", 50, 2, 0, 0, 0, 0, ⟨2023, 4, 10⟩, "FY 2023-24"⟩,
      50, 50, 0, FVal.fin 0, FVal.fin 0, 2, 2, 50, "Growing"⟩ : DeltaRow).growth_ytd_vs_pytd_pct =
      FVal.fin 0 := by
  have hmem : (⟨⟨"B", 50, 2, 0, 0, 0, 0, ⟨2023, 4, 10⟩, "FY 2023-24"⟩,
      50, 50, 0, FVal.fin 0, FVal.fin 0, 2, 2, 50, "Growing"⟩ : DeltaRow) ∈
      calculate_deltas [⟨"B", 50, 2, 0, 0, 0, 0, ⟨2023, 4, 10⟩, "FY 2023-24"⟩] := by
    with_unfolding_all decide
  have h := (growth_zero_denominator [⟨"B", 50, 2, 0, 0, 0, 0, ⟨2023, 4, 10⟩, "FY 2023-24"⟩]
    ⟨⟨"B", 50, 2, 0, 0, 0, 0, ⟨2023, 4, 10⟩, "FY 2023-24"⟩,
      50, 50, 0, FVal.fin 0, FVal.fin 0, 2, 2, 50, "Growing"⟩ hmem).1 (by norm_num)
  rw [h]
  norm_num

set_option maxRecDepth 100000 in
/-- C7 counterexample: `calculate_ytd_metrics` rewrites the `date`
column of the frame of the caller in place (line 69), so the input table is
not unchanged after the call: a string-dated row comes back as a
timestamp-dated row. -/
theorem stage_mutation_cex :
    (calculate_ytd_metrics_run [⟨RawDate.str ⟨2023, 4, 10⟩, "A", 100, 1⟩] none).1 ≠
      [⟨RawDate.str ⟨2023, 4, 10⟩, "A", 100, 1⟩] := by
  with_unfolding_all decide

set_option maxRecDepth 100000 in
/-- C7 amended: `calculate_deltas` (which copies its input) and
`get_category_performance` (which writes only to copies — though it
then always fails on its duplicated `product_name` column instead of
returning a rollup) leave the input table of the caller unchanged, but
`calculate_ytd_metrics` and `get_monthly_trends` write the parsed
`date` column back onto the frame of the caller (`get_monthly_trends`
additionally adds derived columns to it). -/
theorem stage_mutation_amended :
    (∀ metrics : List MetricsRow, (calculate_deltas_run metrics).1 = metrics) ∧
    (∀ (df : List RawRecord) (pm : List (String × String)),
      (get_category_performance_run df pm).1 = df) ∧
    (∀ (df : List RawRecord) (pm : List (String × String)),
      ∃ e, (get_category_performance_run df pm).2 = Except.error e) ∧
    (calculate_ytd_metrics_run [⟨RawDate.str ⟨2023, 4, 10⟩, "A", 100, 1⟩] none).1 =
      [⟨RawDate.ts ⟨2023, 4, 10⟩, "A", 100, 1⟩] ∧
    (get_monthly_trends_run [⟨RawDate.str ⟨2023, 4, 10⟩, "A", 100, 1⟩]).1 =
      [⟨RawDate.ts ⟨2023, 4, 10⟩, "A", 100, 1⟩] := by
  refine ⟨fun metrics => rfl, ?_, ?_,
    by with_unfolding_all decide, by with_unfolding_all decide⟩
  · intro df pm
    unfold get_category_performance_run
    split
    · rfl
    · split
      · rfl
      · rfl
  · intro df pm
    unfold get_category_performance_run
    split
    · exact ⟨_, rfl⟩
    · split
      · exact ⟨_, rfl⟩
      · exact ⟨_, rfl⟩

set_option maxRecDepth 100000 in
/-- Witness for C4: on records for products A (2023-04-10) and B
(2022-04-10) as of 2023-04-10, product B is absent from the YTD window,
so its YTD fields are zero-filled and the shared metadata is attached. -/
theorem metrics_outer_join_witness :
    (⟨"B", 0, 0, 50, 2, 0, 0, ⟨2023, 4, 10⟩, "FY 2023-24"⟩ : MetricsRow).ytd_sales = 0 ∧
    (⟨"B", 0, 0, 50, 2, 0, 0, ⟨2023, 4, 10⟩, "FY 2023-24"⟩ : MetricsRow).as_of_date =
      ⟨2023, 4, 10⟩ ∧
    (⟨"B", 0, 0, 50, 2, 0, 0, ⟨2023, 4, 10⟩, "FY 2023-24"⟩ : MetricsRow).fiscal_year =
      get_fiscal_year ⟨2023, 4, 10⟩ := by
  have hmem : (⟨"B", 0, 0, 50, 2, 0, 0, ⟨2023, 4, 10⟩, "FY 2023-24"⟩ : MetricsRow) ∈
      calculate_ytd_metrics_core
        [⟨⟨2023, 4, 10⟩, "A", 100, 1⟩, ⟨⟨2022, 4, 10⟩, "B", 50, 2⟩] ⟨2023, 4, 10⟩ := by
    with_unfolding_all decide
  have hnot : (⟨"B", 0, 0, 50, 2, 0, 0, ⟨2023, 4, 10⟩, "FY 2023-24"⟩ : MetricsRow).product_name ∉
      summaryKeys (ytd_summary
        [⟨⟨2023, 4, 10⟩, "A", 100, 1⟩, ⟨⟨2022, 4, 10⟩, "B", 50, 2⟩] ⟨2023, 4, 10⟩) := by
    with_unfolding_all decide
  have h := (metrics_outer_join
    [⟨⟨2023, 4, 10⟩, "A", 100, 1⟩, ⟨⟨2022, 4, 10⟩, "B", 50, 2⟩] ⟨2023, 4, 10⟩).2
    ⟨"B", 0, 0, 50, 2, 0, 0, ⟨2023, 4, 10⟩, "FY 2023-24"⟩ hmem
  exact ⟨(h.1 hnot).1, h.2.2.2.1, h.2.2.2.2⟩
